import Mathlib

/-!
Shallow embedding of the DeltaBot per-user dialog dispatch engine, i.e. the
class `BotInstance` of `src/deltabot.py`.  The surrounding chat-platform glue
(Discord client, message deletion, command handling) is out of scope; the
embedding covers `_load_dialogs`, `__lookup_dialog`, `_send_debug` and
`handle`, which make the routing decisions the specification describes.
-/

namespace DeltaBot

/-- Result type of one dialog turn (`dialog_management.DialogResult` in the
source): DONE ends the conversation, WAIT_FOR_INPUT requests the next
message. -/
inductive DialogResult
  | DONE
  | WAIT_FOR_INPUT
  deriving DecidableEq, Repr

/-- One intent classification result (`cognitive.IntentResult`): an intent
name and a confidence score.  Scores are floating point numbers in the
source; the router only compares them against the threshold with `<=`, so
they are embedded as rationals. -/
structure IntentResult where
  name : String
  score : Rat
  deriving DecidableEq, Repr

/-- One extracted entity (`cognitive.EntityResult`); the router never
inspects entities, it only passes them through, so the fields are opaque. -/
structure EntityResult where
  name : String
  value : String
  deriving DecidableEq, Repr

/-- The slice of the bot configuration that `BotInstance` reads:
`config.nlu_threshold` and `config.is_debug()`. -/
structure Config where
  nlu_threshold : Rat
  is_debug : Bool
  deriving DecidableEq, Repr

/-- The per-turn capability of a dialog:
`proceed(message, intents, entities) -> DialogResult`.  The dialog
implementations live in the `dialogs` package, outside the routing core; the
router only observes the returned `DialogResult`, so `proceed` is an
arbitrary function of the turn input.  The `intents` argument is optional
because `handle` passes the raw classifier output, which may be `None`. -/
def ProceedFn : Type :=
  String → Option (List IntentResult) → List EntityResult → DialogResult

/-- A dialog as the router sees it: a stable string id (`dialog_id` in
`dialog_management.Dialog`) plus its `proceed` behaviour. -/
structure Dialog where
  dialog_id : String
  proceed : ProceedFn

/-- Modelled from the spec: the `ID` class constant of
`dialogs.generic_dialogs.NotUnderstanding` is defined outside `src/`; the
spec says every dialog is identified by an immutable opaque id string, so a
distinct concrete string is chosen per dialog class. -/
def NotUnderstanding_ID : String := "NotUnderstanding"

/-- Modelled from the spec: the `ID` constant of `dialogs.qna.QnA`. -/
def QnA_ID : String := "QnA"

/-- Modelled from the spec: the `ID` constant of `dialogs.misc_dialogs.Clock`. -/
def Clock_ID : String := "Clock"

/-- Modelled from the spec: the `ID` constant of `dialogs.news_dialog.News`. -/
def News_ID : String := "News"

/-- Modelled from the spec: the `ID` constant of `dialogs.admin_dialogs.Cleanup`. -/
def Cleanup_ID : String := "Cleanup"

/-- Modelled from the spec: the `ID` constant of `dialogs.qna.QnAAnswer`. -/
def QnAAnswer_ID : String := "QnAAnswer"

/-- Modelled from the spec: the `ID` constant of `dialogs.choose_dialog.Choose`. -/
def Choose_ID : String := "Choose"

/-- The seven dialog implementations a `BotInstance` is constructed with.
In the source each dialog object is built from `self._bot`; here only the
observable `proceed` behaviour of each is kept, as a parameter bundle. -/
structure BotProceeds where
  notUnderstanding : ProceedFn
  qna : ProceedFn
  clock : ProceedFn
  news : ProceedFn
  cleanup : ProceedFn
  answer : ProceedFn
  choose : ProceedFn

/-- The dialog list built by `BotInstance._load_dialogs` (assigned to
`self._dialogs`), in source order. -/
def load_dialogs (b : BotProceeds) : List Dialog :=
  [⟨NotUnderstanding_ID, b.notUnderstanding⟩,
   ⟨QnA_ID, b.qna⟩,
   ⟨Clock_ID, b.clock⟩,
   ⟨News_ID, b.news⟩,
   ⟨Cleanup_ID, b.cleanup⟩,
   ⟨QnAAnswer_ID, b.answer⟩,
   ⟨Choose_ID, b.choose⟩]

/-- Python `str.lower`, applied to the character sequence (the keys in the
source are ASCII, for which per-character lowering agrees with Python). -/
def lower (s : String) : String := ⟨s.data.map Char.toLower⟩

/-- Python `str.startswith`, as a check on the character sequences. -/
def starts_with (s p : String) : Bool := List.isPrefixOf p.data s.data

/-- Python `dict.get`: the value stored under an exactly matching key, if
any.  The dict of the source is embedded as an association list (its seven
keys are distinct, so first-match lookup agrees with dict semantics). -/
def dict_get (m : List (String × String)) (k : String) : Option String :=
  match m with
  | [] => none
  | (k₁, v) :: rest => if k₁ = k then some v else dict_get rest k

/-- The intent-name-to-dialog-id dict built by `BotInstance._load_dialogs`
(assigned to `self._intent_to_dialog`): keys are lowercased at build time,
exactly as written in the source (`"None".lower()` and so on). -/
def intent_to_dialog_table : List (String × String) :=
  [(lower "None", NotUnderstanding_ID),
   (lower "QnA", QnA_ID),
   (lower "Clock", Clock_ID),
   (lower "News", News_ID),
   (lower "Cleanup", Cleanup_ID),
   (lower "Answer", QnAAnswer_ID),
   (lower "Choose", Choose_ID)]

/-- The state of one `BotInstance`: the loaded dialogs, the intent table and
the pending-dialog stack `__active_dialog_stack`.  The first two fields are
written only by `_load_dialogs` at construction; `handle` mutates only the
stack. -/
structure BotInstance where
  dialogs : List Dialog
  intent_to_dialog : List (String × String)
  active_dialog_stack : List String

/-- A `BotInstance` as the constructor builds it, generalized over the stack
contents so that later turns of the same session can be described (the
constructor itself starts with an empty stack). -/
def mk_instance (b : BotProceeds) (stack : List String) : BotInstance :=
  ⟨load_dialogs b, intent_to_dialog_table, stack⟩

/-- `BotInstance.__lookup_dialog`: the first dialog whose id equals the
requested id, if any.  The argument is optional because `handle` may pass the
result of `dict.get`, which is `None` on a miss; no dialog id ever equals
`None`, so that lookup fails. -/
def lookup_dialog (dialogs : List Dialog) (did : Option String) : Option Dialog :=
  match dialogs with
  | [] => none
  | d :: rest => if some d.dialog_id = did then some d else lookup_dialog rest did

/-- A user-visible message sent by the routing code itself.  Messages sent
from inside a dialog happen inside `proceed` and are not modelled.
`dialogNotFound` stands for the fixed admin-escalation text
"Dialog nicht gefunden. Bitte an Bot-Admin wenden!"; `helpMessage` for the
static `send_help_message` text; `debugTrace` for the trace built by
`_send_debug`, carrying the data the trace is rendered from. -/
inductive Msg
  | debugTrace (intents : List IntentResult) (entities : List EntityResult)
  | helpMessage
  | dialogNotFound
  deriving DecidableEq, Repr

/-- `BotInstance._send_debug`: returns immediately when the debug flag is
off; otherwise it renders the trace, whose very first step evaluates
`len(intents)` — a `TypeError` when `intents` is `None` (`handle` guards
against `None` intents, but this helper does not).  `.error` models that
escaping exception; `.ok` carries the messages sent. -/
def send_debug (cfg : Config) (intents : Option (List IntentResult))
    (entities : List EntityResult) : Except Unit (List Msg) :=
  if cfg.is_debug = false then .ok []
  else
    match intents with
    | none => .error ()
    | some found => .ok [Msg.debugTrace found entities]

/-- The routing decision of `handle` (its lines between the debug trace and
the registry resolution): either the reserved-tasks short circuit (`tasks`,
the early `return` after `send_help_message`), or a chosen dialog id
(possibly `None`) together with the stack as it stands after the front entry
was popped. -/
inductive Routed
  | tasks
  | toDialog (dialog : Option String) (stack₁ : List String)
  deriving DecidableEq, Repr

/-- Steps 3 to 8 of `handle`: pop-and-resume when the stack is non-empty;
fallback on `None` or empty intents; otherwise bind the table lookup first
(as the source does) and let the threshold, reserved-tasks and QnA-name
checks override it in order. -/
def route (cfg : Config) (inst : BotInstance)
    (intents : Option (List IntentResult)) : Routed :=
  match inst.active_dialog_stack with
  | d :: rest => .toDialog (some d) rest
  | [] =>
    match intents with
    | none => .toDialog (some NotUnderstanding_ID) []
    | some [] => .toDialog (some NotUnderstanding_ID) []
    | some (i :: _) =>
      let dialog := dict_get inst.intent_to_dialog i.name
      if i.score ≤ cfg.nlu_threshold then .toDialog (some NotUnderstanding_ID) []
      else if i.name = "QnA-Tasks" then .tasks
      else if starts_with i.name "QnA" then .toDialog (some QnA_ID) []
      else .toDialog dialog []

/-- The observable outcome of one completed `handle` call: the pending stack
afterwards, the id of the dialog whose `proceed` was invoked (if any), and
the messages the routing code sent, in order. -/
structure HandleOutcome where
  stack : List String
  invoked : Option String
  sent : List Msg
  deriving DecidableEq, Repr

/-- The result of one `handle` call: either a completed turn, or a Python
exception escaping `handle` (`crash`), carrying the stack at that moment. -/
inductive HandleResult
  | ok (outcome : HandleOutcome)
  | crash (stack : List String)
  deriving DecidableEq, Repr

/-- `BotInstance.handle`: debug trace first (which can raise before anything
else happens), then the routing decision, then registry resolution with the
fixed error message on a miss, then `proceed` with the push of the dialog id
on WAIT_FOR_INPUT.  The classifier call at the top of the source method is
external, so its results `intents` and `entities` are parameters here
(`intents` may be `None`; the `entities` parameter of the source is a plain
list everywhere). -/
def handle (cfg : Config) (inst : BotInstance) (msg : String)
    (intents : Option (List IntentResult)) (entities : List EntityResult) :
    HandleResult :=
  match send_debug cfg intents entities with
  | .error _ => .crash inst.active_dialog_stack
  | .ok dbg =>
    match route cfg inst intents with
    | .tasks => .ok ⟨inst.active_dialog_stack, none, dbg ++ [Msg.helpMessage]⟩
    | .toDialog did stack₁ =>
      match lookup_dialog inst.dialogs did with
      | none => .ok ⟨stack₁, none, dbg ++ [Msg.dialogNotFound]⟩
      | some d =>
        match d.proceed msg intents entities with
        | .DONE => .ok ⟨stack₁, some d.dialog_id, dbg⟩
        | .WAIT_FOR_INPUT => .ok ⟨d.dialog_id :: stack₁, some d.dialog_id, dbg⟩

/-- The stack a `handle` result leaves behind (on a crash the stack is
whatever it was when the exception escaped). -/
def result_stack : HandleResult → List String
  | .ok o => o.stack
  | .crash s => s

/-- The inputs of one turn: the message text and the classifier output. -/
structure Turn where
  msg : String
  intents : Option (List IntentResult)
  entities : List EntityResult

/-- Replace the pending-dialog stack of an instance. -/
def set_stack (inst : BotInstance) (s : List String) : BotInstance :=
  ⟨inst.dialogs, inst.intent_to_dialog, s⟩

/-- Run a sequence of turns through one session, threading the stack. -/
def run_turns (cfg : Config) (inst : BotInstance) : List Turn → BotInstance
  | [] => inst
  | t :: ts =>
      run_turns cfg (set_stack inst (result_stack (handle cfg inst t.msg t.intents t.entities))) ts

/-- A dialog behaviour that always finishes its turn. -/
def constDone : ProceedFn := fun _ _ _ => .DONE

/-- A dialog behaviour that always requests another turn. -/
def constWait : ProceedFn := fun _ _ _ => .WAIT_FOR_INPUT

/-- A bot whose seven dialogs all finish immediately; used as concrete
session material in witnesses and counterexamples. -/
def allDoneB : BotProceeds :=
  ⟨constDone, constDone, constDone, constDone, constDone, constDone, constDone⟩

/-! Helper lemmas about the embedding. -/

/-- When the classifier returned a (possibly empty) intent list, the debug
trace never raises: it sends the trace message iff the flag is on. -/
theorem send_debug_some (cfg : Config) (found : List IntentResult)
    (entities : List EntityResult) :
    send_debug cfg (some found) entities =
      .ok (if cfg.is_debug = true then [Msg.debugTrace found entities] else []) := by
  unfold send_debug
  cases cfg.is_debug <;> simp

/-- With the debug flag off, the trace step sends nothing and never raises. -/
theorem send_debug_off (cfg : Config) (h : cfg.is_debug = false)
    (intents : Option (List IntentResult)) (entities : List EntityResult) :
    send_debug cfg intents entities = .ok [] := by
  unfold send_debug
  rw [h]
  simp

/-- The debug-trace step succeeds whenever the flag is off or the intents are
not null. -/
theorem send_debug_total (cfg : Config) (intents : Option (List IntentResult))
    (entities : List EntityResult) (h : cfg.is_debug = false ∨ intents ≠ none) :
    ∃ dbg, send_debug cfg intents entities = .ok dbg := by
  rcases h with h | h
  · exact ⟨[], send_debug_off cfg h intents entities⟩
  · rcases intents with _ | found
    · exact absurd rfl h
    · exact ⟨_, send_debug_some cfg found entities⟩

/-- Unfolding of `handle` on a turn whose trace step succeeded and whose
routing chose a dialog id. -/
theorem handle_toDialog (cfg : Config) (inst : BotInstance) (msg : String)
    (intents : Option (List IntentResult)) (entities : List EntityResult)
    (dbg : List Msg) (did : Option String) (stack₁ : List String)
    (hdbg : send_debug cfg intents entities = .ok dbg)
    (hrt : route cfg inst intents = .toDialog did stack₁) :
    handle cfg inst msg intents entities =
      (match lookup_dialog inst.dialogs did with
       | none => .ok ⟨stack₁, none, dbg ++ [Msg.dialogNotFound]⟩
       | some d =>
         match d.proceed msg intents entities with
         | .DONE => .ok ⟨stack₁, some d.dialog_id, dbg⟩
         | .WAIT_FOR_INPUT => .ok ⟨d.dialog_id :: stack₁, some d.dialog_id, dbg⟩) := by
  unfold handle
  rw [hdbg, hrt]

/-- Unfolding of `handle` on a turn whose trace step succeeded and whose
routing hit the reserved-tasks short circuit. -/
theorem handle_tasks (cfg : Config) (inst : BotInstance) (msg : String)
    (intents : Option (List IntentResult)) (entities : List EntityResult)
    (dbg : List Msg)
    (hdbg : send_debug cfg intents entities = .ok dbg)
    (hrt : route cfg inst intents = .tasks) :
    handle cfg inst msg intents entities =
      .ok ⟨inst.active_dialog_stack, none, dbg ++ [Msg.helpMessage]⟩ := by
  unfold handle
  rw [hdbg, hrt]

/-- Unfolding of `handle` on a turn whose routing chose an id that resolves
to an installed dialog: the outcome is decided by that dialog. -/
theorem handle_found (cfg : Config) (inst : BotInstance) (msg : String)
    (intents : Option (List IntentResult)) (entities : List EntityResult)
    (dbg : List Msg) (did : Option String) (stack₁ : List String) (d : Dialog)
    (hdbg : send_debug cfg intents entities = .ok dbg)
    (hrt : route cfg inst intents = .toDialog did stack₁)
    (hlk : lookup_dialog inst.dialogs did = some d) :
    handle cfg inst msg intents entities =
      (match d.proceed msg intents entities with
       | .DONE => .ok ⟨stack₁, some d.dialog_id, dbg⟩
       | .WAIT_FOR_INPUT => .ok ⟨d.dialog_id :: stack₁, some d.dialog_id, dbg⟩) := by
  rw [handle_toDialog cfg inst msg intents entities dbg did stack₁ hdbg hrt, hlk]

/-- Unfolding of `handle` on a turn whose routing chose an id that resolves
to no installed dialog: error message, no invocation, stack as popped. -/
theorem handle_notfound (cfg : Config) (inst : BotInstance) (msg : String)
    (intents : Option (List IntentResult)) (entities : List EntityResult)
    (dbg : List Msg) (did : Option String) (stack₁ : List String)
    (hdbg : send_debug cfg intents entities = .ok dbg)
    (hrt : route cfg inst intents = .toDialog did stack₁)
    (hlk : lookup_dialog inst.dialogs did = none) :
    handle cfg inst msg intents entities =
      .ok ⟨stack₁, none, dbg ++ [Msg.dialogNotFound]⟩ := by
  rw [handle_toDialog cfg inst msg intents entities dbg did stack₁ hdbg hrt, hlk]

/-- Routing on an idle session with a non-empty intent list reduces to the
threshold / reserved-tasks / QnA-name / table decision chain. -/
theorem route_idle_cons (cfg : Config) (b : BotProceeds) (i : IntentResult)
    (rest : List IntentResult) :
    route cfg (mk_instance b []) (some (i :: rest)) =
      (if i.score ≤ cfg.nlu_threshold then .toDialog (some NotUnderstanding_ID) []
       else if i.name = "QnA-Tasks" then .tasks
       else if starts_with i.name "QnA" then .toDialog (some QnA_ID) []
       else .toDialog (dict_get intent_to_dialog_table i.name) []) := rfl

/-- Whenever routing chooses a dialog id, the stack it reports is the
original stack with the front entry (if any) removed. -/
theorem route_stack_tail (cfg : Config) (inst : BotInstance)
    (intents : Option (List IntentResult)) (did : Option String)
    (stack₁ : List String)
    (h : route cfg inst intents = .toDialog did stack₁) :
    stack₁ = inst.active_dialog_stack.tail := by
  unfold route at h
  rcases hst : inst.active_dialog_stack with _ | ⟨d, rest⟩ <;> rw [hst] at h
  · rcases intents with _ | ⟨_ | ⟨i, is⟩⟩
    · cases h
      simp
    · cases h
      simp
    · simp only [] at h
      split at h
      · cases h
        simp
      · split at h
        · cases h
        · split at h
          · cases h
            simp
          · cases h
            simp
  · cases h
    simp

/-- A successful id lookup returns a dialog carrying exactly that id. -/
theorem lookup_dialog_id (ds : List Dialog) (x : String) (dlg : Dialog)
    (h : lookup_dialog ds (some x) = some dlg) : dlg.dialog_id = x := by
  induction ds with
  | nil => cases h
  | cons d rest ih =>
    unfold lookup_dialog at h
    by_cases hd : some d.dialog_id = some x
    · rw [if_pos hd] at h
      cases h
      exact Option.some.inj hd
    · rw [if_neg hd] at h
      exact ih h

/-- The fallback dialog is always installed: resolving its id yields the
first loaded dialog. -/
theorem lookup_load_notUnderstanding (b : BotProceeds) :
    lookup_dialog (load_dialogs b) (some NotUnderstanding_ID) =
      some ⟨NotUnderstanding_ID, b.notUnderstanding⟩ := rfl

/-- The QnA dialog is always installed: resolving its id yields the second
loaded dialog. -/
theorem lookup_load_qna (b : BotProceeds) :
    lookup_dialog (load_dialogs b) (some QnA_ID) = some ⟨QnA_ID, b.qna⟩ := rfl

/-- The clock dialog is always installed. -/
theorem lookup_load_clock (b : BotProceeds) :
    lookup_dialog (load_dialogs b) (some Clock_ID) = some ⟨Clock_ID, b.clock⟩ := rfl

/-- Resolving the absent id (`dict.get` miss, `None` in the source) fails. -/
theorem lookup_load_none (b : BotProceeds) :
    lookup_dialog (load_dialogs b) none = none := rfl

/-- Routing on an idle session whose top intent passes the threshold and
matches neither reserved name falls through to the table lookup. -/
theorem route_default (cfg : Config) (b : BotProceeds) (i : IntentResult)
    (rest : List IntentResult)
    (hth : cfg.nlu_threshold < i.score) (ht : i.name ≠ "QnA-Tasks")
    (hq : starts_with i.name "QnA" = false) :
    route cfg (mk_instance b []) (some (i :: rest)) =
      .toDialog (dict_get intent_to_dialog_table i.name) [] := by
  rw [route_idle_cons, if_neg (not_le.mpr hth), if_neg ht]
  simp [hq]

/-! Claim theorems. -/

/-- C2: on an idle session, whenever the top intent scores at or below the
threshold, the NotUnderstanding fallback dialog is the one whose `proceed`
runs — for every intent name, hence also for registered names, for the
reserved "QnA-Tasks" name, and for QnA-prefixed names. -/
theorem claim_C2 (b : BotProceeds) (cfg : Config) (msg : String) (name : String)
    (score : Rat) (rest : List IntentResult) (entities : List EntityResult)
    (hth : score ≤ cfg.nlu_threshold) :
    ∃ o, handle cfg (mk_instance b []) msg (some (⟨name, score⟩ :: rest)) entities = .ok o ∧
      o.invoked = some NotUnderstanding_ID := by
  have hrt : route cfg (mk_instance b []) (some (⟨name, score⟩ :: rest)) =
      .toDialog (some NotUnderstanding_ID) [] := by
    rw [route_idle_cons, if_pos hth]
  have hlk : lookup_dialog (mk_instance b []).dialogs (some NotUnderstanding_ID) =
      some ⟨NotUnderstanding_ID, b.notUnderstanding⟩ := rfl
  rw [handle_found cfg _ msg _ entities _ _ _ _ (send_debug_some cfg _ entities) hrt hlk]
  cases hp : Dialog.proceed ⟨NotUnderstanding_ID, b.notUnderstanding⟩ msg
      (some (⟨name, score⟩ :: rest)) entities
  · exact ⟨_, rfl, rfl⟩
  · exact ⟨_, rfl, rfl⟩

/-- C2 witness: threshold 0, top intent "QnA-Tasks" with score 0 (at the
threshold), debug on — the fallback is invoked although the name is the
reserved tasks intent. -/
theorem claim_C2_witness :
    ((0 : Rat) ≤ (⟨0, true⟩ : Config).nlu_threshold) ∧
    ∃ o, handle ⟨0, true⟩ (mk_instance allDoneB []) "hi"
        (some [⟨"QnA-Tasks", 0⟩]) [] = .ok o ∧
      o.invoked = some NotUnderstanding_ID :=
  ⟨by decide, claim_C2 allDoneB ⟨0, true⟩ "hi" "QnA-Tasks" 0 [] [] (by decide)⟩

/-- C6: on an idle session, a top intent named exactly "QnA-Tasks" scoring
above the threshold short-circuits: the help message is sent, no dialog
`proceed` is invoked, and the pending stack is unchanged (empty). -/
theorem claim_C6 (b : BotProceeds) (cfg : Config) (msg : String) (score : Rat)
    (rest : List IntentResult) (entities : List EntityResult)
    (hth : cfg.nlu_threshold < score) :
    ∃ o, handle cfg (mk_instance b []) msg (some (⟨"QnA-Tasks", score⟩ :: rest)) entities = .ok o ∧
      o.invoked = none ∧ o.stack = [] ∧ Msg.helpMessage ∈ o.sent := by
  have hrt : route cfg (mk_instance b []) (some (⟨"QnA-Tasks", score⟩ :: rest)) = .tasks := by
    rw [route_idle_cons, if_neg (not_le.mpr hth), if_pos rfl]
  rw [handle_tasks cfg _ msg _ entities _ (send_debug_some cfg _ entities) hrt]
  exact ⟨_, rfl, rfl, rfl, by simp⟩

/-- C6 witness: threshold 0, intent ("QnA-Tasks", 1), debug off. -/
theorem claim_C6_witness :
    ((⟨0, false⟩ : Config).nlu_threshold < (1 : Rat)) ∧
    ∃ o, handle ⟨0, false⟩ (mk_instance allDoneB []) "hi"
        (some [⟨"QnA-Tasks", 1⟩]) [] = .ok o ∧
      o.invoked = none ∧ o.stack = [] ∧ Msg.helpMessage ∈ o.sent :=
  ⟨by decide, claim_C6 allDoneB ⟨0, false⟩ "hi" 1 [] [] (by decide)⟩

/-- C7: on an idle session, a top intent whose name starts with "QnA", is
not "QnA-Tasks" and scores above the threshold routes to the QnA dialog —
for every such name, hence also when it is absent from the table or mapped
there to some other id. -/
theorem claim_C7 (b : BotProceeds) (cfg : Config) (msg : String) (name : String)
    (score : Rat) (rest : List IntentResult) (entities : List EntityResult)
    (hth : cfg.nlu_threshold < score) (hq : starts_with name "QnA" = true)
    (ht : name ≠ "QnA-Tasks") :
    ∃ o, handle cfg (mk_instance b []) msg (some (⟨name, score⟩ :: rest)) entities = .ok o ∧
      o.invoked = some QnA_ID := by
  have hrt : route cfg (mk_instance b []) (some (⟨name, score⟩ :: rest)) =
      .toDialog (some QnA_ID) [] := by
    rw [route_idle_cons, if_neg (not_le.mpr hth), if_neg ht]
    simp [hq]
  have hlk : lookup_dialog (mk_instance b []).dialogs (some QnA_ID) =
      some ⟨QnA_ID, b.qna⟩ := rfl
  rw [handle_found cfg _ msg _ entities _ _ _ _ (send_debug_some cfg _ entities) hrt hlk]
  cases hp : Dialog.proceed ⟨QnA_ID, b.qna⟩ msg (some (⟨name, score⟩ :: rest)) entities
  · exact ⟨_, rfl, rfl⟩
  · exact ⟨_, rfl, rfl⟩

/-- C7 witness: intent ("QnA-Weather", 1), threshold 0 — a name with no
table entry of its own, routed to QnA. -/
theorem claim_C7_witness :
    ((⟨0, true⟩ : Config).nlu_threshold < (1 : Rat)) ∧
    starts_with "QnA-Weather" "QnA" = true ∧
    "QnA-Weather" ≠ "QnA-Tasks" ∧
    ∃ o, handle ⟨0, true⟩ (mk_instance allDoneB []) "hi"
        (some [⟨"QnA-Weather", 1⟩]) [] = .ok o ∧
      o.invoked = some QnA_ID :=
  ⟨by decide, by decide, by decide,
    claim_C7 allDoneB ⟨0, true⟩ "hi" "QnA-Weather" 1 [] [] (by decide) (by decide) (by decide)⟩

/-- C9: on an idle session, a top intent above the threshold whose name has
no table entry, does not start with "QnA" and is not "QnA-Tasks" leaves the
chosen dialog id absent; resolution fails, the admin-escalation message is
sent, and no `proceed` runs. -/
theorem claim_C9 (b : BotProceeds) (cfg : Config) (msg : String) (name : String)
    (score : Rat) (rest : List IntentResult) (entities : List EntityResult)
    (hth : cfg.nlu_threshold < score)
    (htbl : dict_get intent_to_dialog_table name = none)
    (ht : name ≠ "QnA-Tasks")
    (hq : starts_with name "QnA" = false) :
    ∃ o, handle cfg (mk_instance b []) msg (some (⟨name, score⟩ :: rest)) entities = .ok o ∧
      o.invoked = none ∧ Msg.dialogNotFound ∈ o.sent ∧ o.stack = [] := by
  have hrt : route cfg (mk_instance b []) (some (⟨name, score⟩ :: rest)) =
      .toDialog none [] := by
    rw [route_default cfg b _ rest hth ht hq]
    rw [htbl]
  have hlk : lookup_dialog (mk_instance b []).dialogs none = none := rfl
  rw [handle_notfound cfg _ msg _ entities _ _ _ (send_debug_some cfg _ entities) hrt hlk]
  exact ⟨_, rfl, rfl, by simp, rfl⟩

/-- C9 witness: scenario F of the spec — ("Unregistered-Intent", 1) with
threshold 0: error message, no dialog invoked. -/
theorem claim_C9_witness :
    ((⟨0, false⟩ : Config).nlu_threshold < (1 : Rat)) ∧
    dict_get intent_to_dialog_table "Unregistered-Intent" = none ∧
    "Unregistered-Intent" ≠ "QnA-Tasks" ∧
    starts_with "Unregistered-Intent" "QnA" = false ∧
    ∃ o, handle ⟨0, false⟩ (mk_instance allDoneB []) "hi"
        (some [⟨"Unregistered-Intent", 1⟩]) [] = .ok o ∧
      o.invoked = none ∧ Msg.dialogNotFound ∈ o.sent ∧ o.stack = [] :=
  ⟨by decide, by decide, by decide, by decide,
    claim_C9 allDoneB ⟨0, false⟩ "hi" "Unregistered-Intent" 1 [] []
      (by decide) (by decide) (by decide) (by decide)⟩

/-- C1 (amended): while the session is AWAITING(d) — the single pending slot
holds d — and d resolves to an installed dialog, and the debug-trace step
does not raise (debug off, or intents non-null), the turn runs d.proceed
regardless of the classification output, ending IDLE iff the result was
DONE and AWAITING(d) again on WAIT_FOR_INPUT. -/
theorem claim_C1_amended (b : BotProceeds) (cfg : Config) (msg : String)
    (intents : Option (List IntentResult)) (entities : List EntityResult)
    (d : String) (dlg : Dialog)
    (hnc : cfg.is_debug = false ∨ intents ≠ none)
    (hres : lookup_dialog (load_dialogs b) (some d) = some dlg) :
    ∃ o, handle cfg (mk_instance b [d]) msg intents entities = .ok o ∧
      o.invoked = some d ∧
      (o.stack = [] ↔ dlg.proceed msg intents entities = .DONE) ∧
      (dlg.proceed msg intents entities = .WAIT_FOR_INPUT → o.stack = [d]) := by
  obtain ⟨dbg, hdbg⟩ := send_debug_total cfg intents entities hnc
  have hrt : route cfg (mk_instance b [d]) intents = .toDialog (some d) [] := rfl
  have hid : dlg.dialog_id = d := lookup_dialog_id _ _ _ hres
  have hres₂ : lookup_dialog (mk_instance b [d]).dialogs (some d) = some dlg := hres
  rw [handle_found cfg _ msg intents entities dbg (some d) [] dlg hdbg hrt hres₂]
  cases hp : dlg.proceed msg intents entities
  · exact ⟨_, rfl, by rw [hid], by simp, by simp⟩
  · exact ⟨_, rfl, by rw [hid], by simp, fun _ => by rw [hid]⟩

/-- C1 witness: AWAITING(NotUnderstanding) with all dialogs finishing
immediately, debug off, null intents — the pending dialog is resumed and
the session ends IDLE. -/
theorem claim_C1_witness :
    ((⟨0, false⟩ : Config).is_debug = false ∨ (none : Option (List IntentResult)) ≠ none) ∧
    lookup_dialog (load_dialogs allDoneB) (some NotUnderstanding_ID) =
      some ⟨NotUnderstanding_ID, constDone⟩ ∧
    ∃ o, handle ⟨0, false⟩ (mk_instance allDoneB [NotUnderstanding_ID]) "hi" none [] = .ok o ∧
      o.invoked = some NotUnderstanding_ID ∧
      (o.stack = [] ↔ Dialog.proceed ⟨NotUnderstanding_ID, constDone⟩ "hi" none [] = .DONE) ∧
      (Dialog.proceed ⟨NotUnderstanding_ID, constDone⟩ "hi" none [] = .WAIT_FOR_INPUT →
        o.stack = [NotUnderstanding_ID]) :=
  ⟨Or.inl rfl, rfl,
    claim_C1_amended allDoneB ⟨0, false⟩ "hi" none [] NotUnderstanding_ID
      ⟨NotUnderstanding_ID, constDone⟩ (Or.inl rfl) rfl⟩

/-- C1 counterexample: with the debug flag on and null intents, a turn in
AWAITING(NotUnderstanding) — an id that does resolve, whose proceed would
return DONE — raises inside the debug trace: no proceed is invoked and the
session is not IDLE afterwards, against the unconditional claim. -/
theorem claim_C1_cex :
    handle ⟨0, true⟩ (mk_instance allDoneB [NotUnderstanding_ID]) "hi" none [] =
      .crash [NotUnderstanding_ID] ∧
    lookup_dialog (load_dialogs allDoneB) (some NotUnderstanding_ID) =
      some ⟨NotUnderstanding_ID, constDone⟩ ∧
    constDone "hi" none [] = .DONE :=
  ⟨rfl, rfl, rfl⟩

/-- C3 (amended): whenever the routing decision reaches resolution and the
chosen id resolves to no installed dialog, the fixed admin-escalation
message is sent, no proceed runs, and the resulting stack is the starting
stack with its front entry (if any) already popped — unchanged for a turn
that began IDLE, but a turn that began AWAITING(d) ends IDLE, the pending
entry consumed rather than preserved. -/
theorem claim_C3_amended (b : BotProceeds) (cfg : Config) (st : List String)
    (msg : String) (intents : Option (List IntentResult))
    (entities : List EntityResult) (did : Option String) (stack₁ : List String)
    (hnc : cfg.is_debug = false ∨ intents ≠ none)
    (hrt : route cfg (mk_instance b st) intents = .toDialog did stack₁)
    (hmiss : lookup_dialog (load_dialogs b) did = none) :
    ∃ o, handle cfg (mk_instance b st) msg intents entities = .ok o ∧
      o.invoked = none ∧ Msg.dialogNotFound ∈ o.sent ∧
      o.stack = stack₁ ∧ stack₁ = st.tail := by
  obtain ⟨dbg, hdbg⟩ := send_debug_total cfg intents entities hnc
  have hmiss₂ : lookup_dialog (mk_instance b st).dialogs did = none := hmiss
  rw [handle_notfound cfg _ msg intents entities dbg did stack₁ hdbg hrt hmiss₂]
  have htail := route_stack_tail cfg (mk_instance b st) intents did stack₁ hrt
  exact ⟨_, rfl, rfl, by simp, rfl, htail⟩

/-- C3 witness: a session AWAITING("ghost") — an id installed nowhere — on
any message: error message, no dialog, and the popped stack (now empty). -/
theorem claim_C3_witness :
    ((⟨0, false⟩ : Config).is_debug = false ∨ (some [] : Option (List IntentResult)) ≠ none) ∧
    route ⟨0, false⟩ (mk_instance allDoneB ["ghost"]) (some []) =
      .toDialog (some "ghost") [] ∧
    lookup_dialog (load_dialogs allDoneB) (some "ghost") = none ∧
    ∃ o, handle ⟨0, false⟩ (mk_instance allDoneB ["ghost"]) "hola" (some []) [] = .ok o ∧
      o.invoked = none ∧ Msg.dialogNotFound ∈ o.sent ∧
      o.stack = [] ∧ ([] : List String) = ["ghost"].tail :=
  ⟨Or.inl rfl, rfl, rfl,
    claim_C3_amended allDoneB ⟨0, false⟩ ["ghost"] "hola" (some []) []
      (some "ghost") [] (Or.inl rfl) rfl rfl⟩

/-- C3 counterexample: a session AWAITING("ghost") where "ghost" resolves to
nothing — before the turn the stack is ["ghost"], after the failing turn it
is empty, so the state is not "exactly as it was before the turn". -/
theorem claim_C3_cex :
    (mk_instance allDoneB ["ghost"]).active_dialog_stack = ["ghost"] ∧
    handle ⟨0, false⟩ (mk_instance allDoneB ["ghost"]) "hi" (some []) [] =
      .ok ⟨[], none, [Msg.dialogNotFound]⟩ :=
  ⟨rfl, by decide⟩

/-- C4 (amended): keys of the intent-to-dialog table are lowercased only
when the table is built; the lookup in `handle` uses the top intent name
verbatim.  A top intent that differs from a registered key only in case —
"Clock" versus the key "clock" — therefore finds no entry and ends in the
dialog-not-found error, while the already-lowercase "clock" routes to the
clock dialog. -/
theorem claim_C4_amended (b : BotProceeds) (cfg : Config) (msg : String)
    (score : Rat) (rest : List IntentResult) (entities : List EntityResult)
    (hth : cfg.nlu_threshold < score) :
    (∃ o, handle cfg (mk_instance b []) msg (some (⟨"Clock", score⟩ :: rest)) entities = .ok o ∧
        o.invoked = none ∧ Msg.dialogNotFound ∈ o.sent) ∧
    (∃ o, handle cfg (mk_instance b []) msg (some (⟨"clock", score⟩ :: rest)) entities = .ok o ∧
        o.invoked = some Clock_ID) := by
  constructor
  · have hrt : route cfg (mk_instance b []) (some (⟨"Clock", score⟩ :: rest)) =
        .toDialog none [] := by
      rw [route_default cfg b _ rest hth (show "Clock" ≠ "QnA-Tasks" by decide)
        (show starts_with "Clock" "QnA" = false by decide)]
      rfl
    have hlk : lookup_dialog (mk_instance b []).dialogs none = none := rfl
    rw [handle_notfound cfg _ msg _ entities _ _ _ (send_debug_some cfg _ entities) hrt hlk]
    exact ⟨_, rfl, rfl, by simp⟩
  · have hrt : route cfg (mk_instance b []) (some (⟨"clock", score⟩ :: rest)) =
        .toDialog (some Clock_ID) [] := by
      rw [route_default cfg b _ rest hth (show "clock" ≠ "QnA-Tasks" by decide)
        (show starts_with "clock" "QnA" = false by decide)]
      rfl
    have hlk : lookup_dialog (mk_instance b []).dialogs (some Clock_ID) =
        some ⟨Clock_ID, b.clock⟩ := rfl
    rw [handle_found cfg _ msg _ entities _ _ _ _ (send_debug_some cfg _ entities) hrt hlk]
    cases hp : Dialog.proceed ⟨Clock_ID, b.clock⟩ msg (some (⟨"clock", score⟩ :: rest)) entities
    · exact ⟨_, rfl, rfl⟩
    · exact ⟨_, rfl, rfl⟩

/-- C4 witness: threshold 0, score 1, for both the "Clock" and the "clock"
runs of the amended statement. -/
theorem claim_C4_witness :
    ((⟨0, false⟩ : Config).nlu_threshold < (1 : Rat)) ∧
    ((∃ o, handle ⟨0, false⟩ (mk_instance allDoneB []) "hi"
          (some [⟨"Clock", 1⟩]) [] = .ok o ∧
        o.invoked = none ∧ Msg.dialogNotFound ∈ o.sent) ∧
     (∃ o, handle ⟨0, false⟩ (mk_instance allDoneB []) "hi"
          (some [⟨"clock", 1⟩]) [] = .ok o ∧
        o.invoked = some Clock_ID)) :=
  ⟨by decide, claim_C4_amended allDoneB ⟨0, false⟩ "hi" 1 [] [] (by decide)⟩

/-- C4 counterexample: "clock" is a registered key mapped to the clock
dialog, yet the top intent "Clock" (score 1 > threshold 0) is not routed to
it: the turn ends in the dialog-not-found error with no dialog invoked, so
lookup is not case-insensitive. -/
theorem claim_C4_cex :
    dict_get intent_to_dialog_table "clock" = some Clock_ID ∧
    handle ⟨0, false⟩ (mk_instance allDoneB []) "hi" (some [⟨"Clock", 1⟩]) [] =
      .ok ⟨[], none, [Msg.dialogNotFound]⟩ :=
  ⟨by decide, by decide⟩

/-- C5: the code, evaluated at the failing input — idle session, debug flag
enabled, classifier result null — raises (TypeError from `len(None)` inside
`_send_debug`) before any routing happens, whereas the very same turn with
debug disabled invokes the NotUnderstanding fallback as the claim states. -/
theorem claim_C5_bug :
    handle ⟨0, true⟩ (mk_instance allDoneB []) "hi" none [] = .crash [] ∧
    handle ⟨0, false⟩ (mk_instance allDoneB []) "hi" none [] =
      .ok ⟨[], some NotUnderstanding_ID, []⟩ :=
  ⟨rfl, by decide⟩

/-- Shape of the stack after any single `handle` call: unchanged (the
reserved-tasks short circuit, reachable only on an empty stack, or an
escaping exception), or the front entry popped, or one id pushed onto the
popped stack — never more than one push, and always after the pop. -/
theorem stack_shape (cfg : Config) (inst : BotInstance) (msg : String)
    (intents : Option (List IntentResult)) (entities : List EntityResult) :
    result_stack (handle cfg inst msg intents entities) = inst.active_dialog_stack ∨
    result_stack (handle cfg inst msg intents entities) = inst.active_dialog_stack.tail ∨
    ∃ x, result_stack (handle cfg inst msg intents entities) =
      x :: inst.active_dialog_stack.tail := by
  rcases hdbg : send_debug cfg intents entities with _ | dbg
  · left
    unfold handle
    rw [hdbg]
    rfl
  · rcases hrt : route cfg inst intents with _ | ⟨did, stack₁⟩
    · left
      rw [handle_tasks cfg inst msg intents entities dbg hdbg hrt]
      rfl
    · have htail := route_stack_tail cfg inst intents did stack₁ hrt
      rcases hlk : lookup_dialog inst.dialogs did with _ | d
      · right; left
        rw [handle_notfound cfg inst msg intents entities dbg did stack₁ hdbg hrt hlk]
        exact htail
      · rw [handle_found cfg inst msg intents entities dbg did stack₁ d hdbg hrt hlk]
        cases hp : d.proceed msg intents entities
        · right; left
          exact htail
        · right; right
          refine ⟨d.dialog_id, ?_⟩
          rw [htail]
          rfl

/-- Any stack of at most one entry still has at most one entry after a
further turn. -/
theorem run_turns_le_one (cfg : Config) (ts : List Turn) :
    ∀ inst : BotInstance, inst.active_dialog_stack.length ≤ 1 →
      (run_turns cfg inst ts).active_dialog_stack.length ≤ 1 := by
  induction ts with
  | nil => exact fun inst h => h
  | cons t ts ih =>
    intro inst h
    apply ih
    show (result_stack (handle cfg inst t.msg t.intents t.entities)).length ≤ 1
    rcases stack_shape cfg inst t.msg t.intents t.entities with hs | hs | ⟨x, hs⟩
    · rw [hs]; exact h
    · rw [hs, List.length_tail]; omega
    · rw [hs]
      simp only [List.length_cons, List.length_tail]
      omega

/-- C8: per turn, `handle` pops the front entry (if any) before pushing at
most one entry — the resulting stack is always the original, its tail, or
one id consed onto its tail — and consequently a session that starts with an
empty stack has at most one pending entry after every finite sequence of
turns. -/
theorem claim_C8 :
    (∀ (cfg : Config) (inst : BotInstance) (msg : String)
        (intents : Option (List IntentResult)) (entities : List EntityResult),
      result_stack (handle cfg inst msg intents entities) = inst.active_dialog_stack ∨
      result_stack (handle cfg inst msg intents entities) = inst.active_dialog_stack.tail ∨
      ∃ x, result_stack (handle cfg inst msg intents entities) =
        x :: inst.active_dialog_stack.tail) ∧
    (∀ (cfg : Config) (b : BotProceeds) (ts : List Turn),
      (run_turns cfg (mk_instance b []) ts).active_dialog_stack.length ≤ 1) :=
  ⟨stack_shape, fun cfg b ts => run_turns_le_one cfg ts (mk_instance b []) (Nat.zero_le 1)⟩

/-- Routing ignores the debug flag: two configurations with the same
threshold route identically. -/
theorem route_threshold_only (thr : Rat) (b₁ b₂ : Bool) (inst : BotInstance)
    (intents : Option (List IntentResult)) :
    route ⟨thr, b₁⟩ inst intents = route ⟨thr, b₂⟩ inst intents := rfl

/-- C10 (amended): when the classifier returned a non-null intent list, two
`handle` runs that differ only in the debug flag invoke the same dialog and
leave the same pending stack — the debug trace changes only what is sent.
(With a null intent list the debug-enabled run raises instead, so the two
runs are not equivalent; see the counterexample.) -/
theorem claim_C10_amended (b : BotProceeds) (st : List String) (thr : Rat)
    (b₁ b₂ : Bool) (msg : String) (found : List IntentResult)
    (entities : List EntityResult) :
    ∃ o₁ o₂,
      handle ⟨thr, b₁⟩ (mk_instance b st) msg (some found) entities = .ok o₁ ∧
      handle ⟨thr, b₂⟩ (mk_instance b st) msg (some found) entities = .ok o₂ ∧
      o₁.stack = o₂.stack ∧ o₁.invoked = o₂.invoked := by
  have hr₁₂ := route_threshold_only thr b₁ b₂ (mk_instance b st) (some found)
  rcases hrt : route ⟨thr, b₁⟩ (mk_instance b st) (some found) with _ | ⟨did, stack₁⟩
  · rw [handle_tasks _ _ msg _ entities _ (send_debug_some _ found entities) hrt,
      handle_tasks _ _ msg _ entities _ (send_debug_some _ found entities) (hr₁₂ ▸ hrt)]
    exact ⟨_, _, rfl, rfl, rfl, rfl⟩
  · rcases hlk : lookup_dialog (mk_instance b st).dialogs did with _ | d
    · rw [handle_notfound _ _ msg _ entities _ _ _
          (send_debug_some _ found entities) hrt hlk,
        handle_notfound _ _ msg _ entities _ _ _
          (send_debug_some _ found entities) (hr₁₂ ▸ hrt) hlk]
      exact ⟨_, _, rfl, rfl, rfl, rfl⟩
    · rw [handle_found _ _ msg _ entities _ _ _ _
          (send_debug_some _ found entities) hrt hlk,
        handle_found _ _ msg _ entities _ _ _ _
          (send_debug_some _ found entities) (hr₁₂ ▸ hrt) hlk]
      cases hp : d.proceed msg (some found) entities
      · exact ⟨_, _, rfl, rfl, rfl, rfl⟩
      · exact ⟨_, _, rfl, rfl, rfl, rfl⟩

/-- C10 counterexample: same message, same starting state AWAITING
(NotUnderstanding), same (null) classifier result — the debug-off run pops
and resumes the pending dialog and ends IDLE, while the debug-on run raises
in the trace step: different dialog choice (some versus none) and different
final stack, refuting noninterference over all classifier results. -/
theorem claim_C10_cex :
    handle ⟨0, false⟩ (mk_instance allDoneB [NotUnderstanding_ID]) "hi" none [] =
      .ok ⟨[], some NotUnderstanding_ID, []⟩ ∧
    handle ⟨0, true⟩ (mk_instance allDoneB [NotUnderstanding_ID]) "hi" none [] =
      .crash [NotUnderstanding_ID] :=
  ⟨by decide, rfl⟩

end DeltaBot
